import Mathlib

/-!
Verification of the daemon lifecycle core of `soundctld` (file `src/daemon.py`,
class `Daemon`).  The Python code is shallowly embedded: the pidfile is an
`Option String` holding the file's contents when it exists; the operating
system's `fork` and `kill` calls are parameters describing their outcomes;
`sys.exit`, uncaught exceptions and stream writes are recorded explicitly in
the results.  Python's `int()` builtin is modelled over ASCII strings
(optional surrounding whitespace, optional sign, decimal digits with single
underscores allowed between digits); `str.strip()` is modelled over the ASCII
whitespace characters.
-/

/-! ## Python string and integer primitives -/

/-- ASCII whitespace stripped by `str.strip()`:
space, tab, newline, carriage return, vertical tab, form feed. -/
def isPySpace (c : Char) : Bool :=
  c.toNat = 32 || c.toNat = 9 || c.toNat = 10 || c.toNat = 13 ||
  c.toNat = 11 || c.toNat = 12

/-- ASCII decimal digit test, as accepted by `int()`. -/
def isDigitChar (c : Char) : Bool :=
  48 ≤ c.toNat && c.toNat ≤ 57

/-- Numeric value of an ASCII digit character. -/
def digitVal (c : Char) : Nat := c.toNat - 48

/-- The ASCII character for a decimal digit. -/
def digitChar : Nat → Char
  | 0 => '0'
  | 1 => '1'
  | 2 => '2'
  | 3 => '3'
  | 4 => '4'
  | 5 => '5'
  | 6 => '6'
  | 7 => '7'
  | 8 => '8'
  | 9 => '9'
  | _ => '?'

/-- `str.strip()` on a character list: drop whitespace from both ends. -/
def pyStripList (cs : List Char) : List Char :=
  ((cs.dropWhile isPySpace).reverse.dropWhile isPySpace).reverse

/-- `str.strip()`. -/
def pyStrip (s : String) : String := String.mk (pyStripList s.data)

/-- One step of decimal accumulation while parsing digits left to right. -/
def digitStep (acc : Nat) (c : Char) : Nat := acc * 10 + digitVal c

/-- Digits of an integer literal after its first digit: `int()` allows a
single underscore between two digits (`"1_0"` parses, `"1__0"`, `"1_"`
do not). -/
def parseDigitsAux : Nat → List Char → Option Nat
  | acc, [] => some acc
  | acc, c :: rest =>
    if c = '_' then
      match rest with
      | [] => none
      | d :: rest2 =>
        if isDigitChar d then parseDigitsAux (digitStep acc d) rest2 else none
    else if isDigitChar c then parseDigitsAux (digitStep acc c) rest
    else none

/-- The digit part of an integer literal: at least one digit, underscores
only between digits. -/
def parseDigits : List Char → Option Nat
  | [] => none
  | c :: rest =>
    if isDigitChar c then parseDigitsAux (digitVal c) rest else none

/-- Body of `int()` after stripping: an optional sign followed by digits. -/
def pythonIntChars (cs : List Char) : Option Int :=
  match cs with
  | [] => none
  | c :: rest =>
    if c = '+' then (parseDigits rest).map (fun n => (n : Int))
    else if c = '-' then (parseDigits rest).map (fun n => -(n : Int))
    else (parseDigits (c :: rest)).map (fun n => (n : Int))

/-- Python's `int(s)` on a string: strips surrounding whitespace itself,
then parses an optionally signed decimal numeral; `none` models the
`ValueError` raised on any other input. -/
def pyInt (s : String) : Option Int :=
  pythonIntChars (pyStripList s.data)

/-- `int(content.strip())`, the expression both `Daemon.start` and
`Daemon.stop` use to read a pid from the pidfile contents. -/
def readPid (c : String) : Option Int := pyInt (pyStrip c)

/-- Decimal digits of `n`, least significant first, with explicit fuel
(enough fuel is any bound with `n ≤ fuel`). -/
def natDigitsRevFuel : Nat → Nat → List Char
  | 0, _ => []
  | fuel + 1, n =>
    if n = 0 then [] else digitChar (n % 10) :: natDigitsRevFuel fuel (n / 10)

/-- Decimal digits of `n`, least significant first. -/
def natDigitsRev (n : Nat) : List Char := natDigitsRevFuel n n

/-- Python's `str()` on a nonnegative integer: its decimal numeral. -/
def pyStrOfNat (n : Nat) : String :=
  if n = 0 then "0" else String.mk (natDigitsRev n).reverse

/-- `str.find`: index of the first occurrence of `needle` in `hay`
starting at `i`, as an option. -/
def firstPrefixIdx (needle hay : List Char) : Option Nat :=
  (List.range (hay.length + 1)).find? (fun i => needle.isPrefixOf (hay.drop i))

/-- Python's `hay.find(needle)`: first index of `needle` in `hay`, `-1` when
absent. -/
def pyFind (hay needle : String) : Int :=
  match firstPrefixIdx needle.data hay.data with
  | some i => (i : Int)
  | none => -1

/-! ## The daemon model -/

/-- Observable actions performed along the worker lineage during
`Daemon.daemonize` / `Daemon.start`, in program order.  `exitParent` is the
`sys.exit(0)` of a fork parent; `exitProcess` is a fatal `sys.exit` of the
process currently executing the lineage.  The three `open(os.devnull)` calls
are folded into the corresponding `dup2` redirection events. -/
inductive Event
  | fork1
  | exitParent (code : Nat)
  | stderrWrite (msg : String)
  | exitProcess (code : Nat)
  | chdirRoot
  | setsid
  | umask0
  | fork2
  | flushStdout
  | flushStderr
  | redirectStdin
  | redirectStdout
  | redirectStderr
  | atexitRegisterDelpid
  | writePidfile (content : String)
  | raiseValueError
  | runCallback
deriving DecidableEq

/-- Outcome of an `os.fork()` call: the child's pid on success, or the
message of the raised `OSError`. -/
inductive ForkR
  | ok (childPid : Nat)
  | fail (errMsg : String)
deriving DecidableEq

/-- Fate of a process in the model: returned normally, called `sys.exit`
with a code, or let a `ValueError` escape uncaught. -/
inductive Outcome
  | normal
  | exited (code : Nat)
  | valueError
deriving DecidableEq

/-- Exit status the operating system observes for each `Outcome`: a normal
return from the command handler exits 0, and CPython exits with status 1
when an exception escapes uncaught. -/
def exitCode : Outcome → Nat
  | .normal => 0
  | .exited c => c
  | .valueError => 1

/-- Outcome of one `os.kill(pid, SIGTERM)` call: delivered, or raised an
`OSError` whose `str(err.args)` is the given string. -/
inductive KillResult
  | ok
  | raised (args : String)
deriving DecidableEq

/-- Result of `Daemon.start`: the events performed along the worker
lineage, the pidfile contents afterwards, and the fate of the original
invoking process. -/
structure StartResult where
  events : List Event
  pidfileAfter : Option String
  invoker : Outcome
deriving DecidableEq

/-- Result of `Daemon.stop`: pidfile contents afterwards, the pids to which
a SIGTERM was actually delivered (in order), the number of `time.sleep`
calls, the messages written to stderr and stdout, and the fate of the
invoking process. -/
structure StopResult where
  pidfileAfter : Option String
  signalsSent : List Int
  sleeps : Nat
  stderrMsgs : List String
  stdoutMsgs : List String
  outcome : Outcome
deriving DecidableEq

/-- `"pidfile {0} already exist. Daemon already running?\n".format(path)` -/
def alreadyRunningMsg (path : String) : String :=
  "pidfile " ++ path ++ " already exist. Daemon already running?\n"

/-- `"pidfile {0} does not exist. Daemon not running?\n".format(path)` -/
def notRunningMsg (path : String) : String :=
  "pidfile " ++ path ++ " does not exist. Daemon not running?\n"

/-- `"fork #1 failed: {0}\n".format(err)` -/
def fork1FailMsg (m : String) : String := "fork #1 failed: " ++ m ++ "\n"

/-- `"fork #2 failed: {0}\n".format(err)` -/
def fork2FailMsg (m : String) : String := "fork #2 failed: " ++ m ++ "\n"

/-- The substring `Daemon.stop` searches for in `str(err.args)`. -/
def noSuchNeedle : String := "No such process"

/-- `str(os.getpid()) + '\n'`, the contents `daemonize` writes to the
pidfile in the final child whose pid is `pid`. -/
def pidfileContent (pid : Nat) : String := pyStrOfNat pid ++ "\n"

/-- `time.sleep(0.1)`: the poll interval of `stop`'s retry loop, in
seconds. -/
def pollIntervalSeconds : Rat := 1 / 10

/-- The events of `Daemon.daemonize`, given the outcomes of the two
`os.fork()` calls.  On `fork #1` failure the original process writes to
stderr and exits 1; otherwise the parent exits 0 and the first child
changes directory to `/`, calls `os.setsid()`, resets the umask to 0 and
forks again; on `fork #2` failure the first child writes to stderr and
exits 1; otherwise it exits 0 and the second child flushes and redirects
the standard streams, registers `delpid` with `atexit`, and writes its pid
to the pidfile. -/
def daemonizeEvents (f1 f2 : ForkR) : List Event :=
  match f1 with
  | .fail m => [.fork1, .stderrWrite (fork1FailMsg m), .exitProcess 1]
  | .ok _ =>
    [.fork1, .exitParent 0, .chdirRoot, .setsid, .umask0, .fork2] ++
    (match f2 with
     | .fail m => [.stderrWrite (fork2FailMsg m), .exitProcess 1]
     | .ok p2 => [.exitParent 0, .flushStdout, .flushStderr,
                  .redirectStdin, .redirectStdout, .redirectStderr,
                  .atexitRegisterDelpid, .writePidfile (pidfileContent p2)])

/-- `self.daemonize(); self.run(args)` — the tail of `Daemon.start` once no
running daemon was detected.  The pidfile is overwritten (mode `'w+'`) only
when the lineage reaches the write; the original invoker exits 1 on a
`fork #1` failure and 0 otherwise (it is the first fork's parent). -/
def startDaemonize (oldPidfile : Option String) (f1 f2 : ForkR) : StartResult :=
  match f1, f2 with
  | .fail m, _ => ⟨daemonizeEvents (.fail m) f2, oldPidfile, .exited 1⟩
  | .ok p1, .fail m => ⟨daemonizeEvents (.ok p1) (.fail m), oldPidfile, .exited 0⟩
  | .ok p1, .ok p2 => ⟨daemonizeEvents (.ok p1) (.ok p2) ++ [.runCallback],
                       some (pidfileContent p2), .exited 0⟩

/-- `Daemon.start`.  Reading the pidfile catches only `IOError` (absence),
setting `pid = None`; a `ValueError` from `int()` escapes.  A truthy `pid`
writes the already-running message to stderr and exits 1; otherwise the
daemon is started. -/
def start (path : String) (pidfile : Option String) (f1 f2 : ForkR) : StartResult :=
  match pidfile with
  | none => startDaemonize none f1 f2
  | some c =>
    match readPid c with
    | none => ⟨[.raiseValueError], some c, .valueError⟩
    | some pid =>
      if pid ≠ 0 then ⟨[.stderrWrite (alreadyRunningMsg path)], some c, .exited 1⟩
      else startDaemonize (some c) f1 f2

/-- The `while 1: os.kill(pid, SIGTERM); time.sleep(0.1)` loop, driven by
the outcome `kills i` of the `i`-th kill call and bounded by fuel: `none`
means the loop is still running after `fuel` kill calls; `some (n, args)`
means the first `n` kills were delivered (each followed by a sleep) and the
`n`-th raised an `OSError` with `str(err.args) = args`. -/
def killLoop (kills : Nat → KillResult) : Nat → Nat → Option (Nat × String)
  | 0, _ => none
  | fuel + 1, i =>
    match kills i with
    | .ok => killLoop kills fuel (i + 1)
    | .raised args => some (i, args)

/-- `Daemon.stop`, with fuel bounding the kill loop (`none` = the loop had
not terminated within `fuel` kill calls).  Absence of the pidfile is caught
as `IOError` and reported as not running; a falsy pid is reported the same
way; an unparsable pidfile raises `ValueError`.  Otherwise the loop runs:
when the raised error's `str(err.args)` contains `"No such process"` at a
positive index, the pidfile is removed if it still exists and `stop`
returns; any other error is printed to stdout and the process exits 1. -/
def stopFuel (fuel : Nat) (path : String) (pidfile : Option String)
    (kills : Nat → KillResult) : Option StopResult :=
  match pidfile with
  | none => some ⟨none, [], 0, [notRunningMsg path], [], .normal⟩
  | some c =>
    match readPid c with
    | none => some ⟨some c, [], 0, [], [], .valueError⟩
    | some pid =>
      if pid = 0 then some ⟨some c, [], 0, [notRunningMsg path], [], .normal⟩
      else
        match killLoop kills fuel 0 with
        | none => none
        | some (n, args) =>
          if 0 < pyFind args noSuchNeedle then
            some ⟨none, List.replicate n pid, n, [], [], .normal⟩
          else
            some ⟨some c, List.replicate n pid, n, [], [args ++ "\n"], .exited 1⟩

/-- The start sequence exactly as claim C5 words it: pidfile written before
the cleanup action is registered.  This definition follows the claim's
words, not the source, and exists only to be compared with the source's
actual event order. -/
def c5ClaimedEvents (finalPid : Nat) : List Event :=
  [.fork1, .exitParent 0, .chdirRoot, .setsid, .umask0, .fork2, .exitParent 0,
   .flushStdout, .flushStderr, .redirectStdin, .redirectStdout, .redirectStderr,
   .writePidfile (pidfileContent finalPid), .atexitRegisterDelpid, .runCallback]

/-! ## Helper lemmas: digits, stripping and the decimal roundtrip -/

theorem digit_not_space {c : Char} (h : isDigitChar c = true) :
    isPySpace c = false := by
  simp only [isDigitChar, Bool.and_eq_true, decide_eq_true_eq] at h
  simp only [isPySpace, Bool.or_eq_false_iff, decide_eq_false_iff_not]
  omega

theorem digit_ne_underscore {c : Char} (h : isDigitChar c = true) : c ≠ '_' := by
  rintro rfl; exact absurd h (by decide)

theorem digit_ne_plus {c : Char} (h : isDigitChar c = true) : c ≠ '+' := by
  rintro rfl; exact absurd h (by decide)

theorem digit_ne_minus {c : Char} (h : isDigitChar c = true) : c ≠ '-' := by
  rintro rfl; exact absurd h (by decide)

theorem digit_ne_newline {c : Char} (h : isDigitChar c = true) : c ≠ '\n' := by
  rintro rfl; exact absurd h (by decide)

theorem digitChar_isDigit : ∀ d < 10, isDigitChar (digitChar d) = true := by decide

theorem digitVal_digitChar : ∀ d < 10, digitVal (digitChar d) = d := by decide

theorem ndrf_zero (f : Nat) : natDigitsRevFuel f 0 = [] := by
  cases f <;> simp [natDigitsRevFuel]

theorem ndrf_succ (f n : Nat) (hn : 0 < n) :
    natDigitsRevFuel (f + 1) n = digitChar (n % 10) :: natDigitsRevFuel f (n / 10) := by
  simp [natDigitsRevFuel, Nat.pos_iff_ne_zero.mp hn]

theorem ndrf_digits : ∀ f n, n ≤ f → ∀ c ∈ natDigitsRevFuel f n, isDigitChar c = true := by
  intro f
  induction f with
  | zero => intro n hn c hc; simp [natDigitsRevFuel] at hc
  | succ f ih =>
    intro n hn c hc
    rcases Nat.eq_zero_or_pos n with h0 | h0
    · subst h0; simp [ndrf_zero] at hc
    · rw [ndrf_succ f n h0] at hc
      rcases List.mem_cons.mp hc with h | h
      · subst h; exact digitChar_isDigit _ (Nat.mod_lt _ (by omega))
      · have hlt : n / 10 < n := Nat.div_lt_self h0 (by omega)
        exact ih (n / 10) (by omega) c h

theorem foldl_ndrf : ∀ f n acc, n ≤ f →
    List.foldl digitStep acc ((natDigitsRevFuel f n).reverse)
      = acc * 10 ^ (natDigitsRevFuel f n).length + n := by
  intro f
  induction f with
  | zero =>
    intro n acc hn
    have : n = 0 := by omega
    subst this; simp [natDigitsRevFuel]
  | succ f ih =>
    intro n acc hn
    rcases Nat.eq_zero_or_pos n with h0 | h0
    · subst h0; simp [ndrf_zero]
    · rw [ndrf_succ f n h0]
      have hdiv : n / 10 ≤ f := by
        have hlt : n / 10 < n := Nat.div_lt_self h0 (by omega)
        omega
      simp only [List.reverse_cons, List.foldl_append, List.foldl_cons,
        List.foldl_nil, List.length_cons]
      rw [ih (n / 10) acc hdiv]
      simp only [digitStep, digitVal_digitChar (n % 10) (Nat.mod_lt _ (by omega))]
      have hdm := Nat.div_add_mod n 10
      rw [pow_succ, Nat.add_mul, ← Nat.mul_assoc]
      omega

theorem parseDigitsAux_digits : ∀ cs acc, (∀ c ∈ cs, isDigitChar c = true) →
    parseDigitsAux acc cs = some (cs.foldl digitStep acc) := by
  intro cs
  induction cs with
  | nil => intro acc _; simp [parseDigitsAux]
  | cons c rest ih =>
    intro acc h
    have hc : isDigitChar c = true := h c (List.mem_cons_self c rest)
    rw [parseDigitsAux.eq_def]
    simp only [if_neg (digit_ne_underscore hc), if_pos hc, List.foldl_cons]
    exact ih _ (fun d hd => h d (List.mem_cons_of_mem c hd))

theorem parseDigits_digits (cs : List Char) (hne : cs ≠ [])
    (h : ∀ c ∈ cs, isDigitChar c = true) :
    parseDigits cs = some (cs.foldl digitStep 0) := by
  cases cs with
  | nil => exact absurd rfl hne
  | cons c rest =>
    have hc : isDigitChar c = true := h c (List.mem_cons_self c rest)
    simp only [parseDigits, if_pos hc, List.foldl_cons,
      parseDigitsAux_digits rest _ (fun d hd => h d (List.mem_cons_of_mem c hd))]
    simp [digitStep]

theorem pyStrOfNat_digits (n : Nat) :
    ∀ c ∈ (pyStrOfNat n).data, isDigitChar c = true := by
  rcases Nat.eq_zero_or_pos n with h0 | h0
  · subst h0; decide
  · intro c hc
    rw [pyStrOfNat, if_neg (Nat.pos_iff_ne_zero.mp h0)] at hc
    exact ndrf_digits n n le_rfl c (List.mem_reverse.mp hc)

theorem pyStrOfNat_ne_nil (n : Nat) : (pyStrOfNat n).data ≠ [] := by
  rcases Nat.eq_zero_or_pos n with h0 | h0
  · subst h0; decide
  · rw [pyStrOfNat, if_neg (Nat.pos_iff_ne_zero.mp h0)]
    show (natDigitsRev n).reverse ≠ []
    rw [natDigitsRev]
    cases n with
    | zero => omega
    | succ m =>
      rw [ndrf_succ m (m + 1) (Nat.succ_pos m)]
      simp

theorem parseDigits_pyStrOfNat (n : Nat) :
    parseDigits (pyStrOfNat n).data = some n := by
  rcases Nat.eq_zero_or_pos n with h0 | h0
  · subst h0; decide
  · rw [parseDigits_digits _ (pyStrOfNat_ne_nil n) (pyStrOfNat_digits n)]
    rw [pyStrOfNat, if_neg (Nat.pos_iff_ne_zero.mp h0)]
    show some (List.foldl digitStep 0 (natDigitsRev n).reverse) = some n
    rw [natDigitsRev, foldl_ndrf n n 0 le_rfl]
    simp

theorem dropWhile_digits (cs : List Char) (h : ∀ c ∈ cs, isDigitChar c = true) :
    cs.dropWhile isPySpace = cs := by
  cases cs with
  | nil => rfl
  | cons c rest =>
    simp [List.dropWhile, digit_not_space (h c (List.mem_cons_self c rest))]

theorem pyStripList_digits (cs : List Char) (h : ∀ c ∈ cs, isDigitChar c = true) :
    pyStripList cs = cs := by
  rw [pyStripList, dropWhile_digits cs h,
    dropWhile_digits cs.reverse (fun c hc => h c (List.mem_reverse.mp hc)),
    List.reverse_reverse]

theorem pyStripList_digits_newline (cs : List Char)
    (h : ∀ c ∈ cs, isDigitChar c = true) :
    pyStripList (cs ++ ['\n']) = cs := by
  cases cs with
  | nil => decide
  | cons c rest =>
    rw [pyStripList, List.cons_append, List.dropWhile,
      digit_not_space (h c (List.mem_cons_self c rest))]
    simp only [List.reverse_cons, List.reverse_append, List.reverse_cons,
      List.reverse_nil, List.nil_append, List.cons_append, List.nil_append]
    rw [List.dropWhile, show isPySpace '\n' = true from rfl]
    have hrev : ∀ d ∈ (rest.reverse ++ [c]), isDigitChar d = true := by
      intro d hd
      rcases List.mem_append.mp hd with h1 | h1
      · exact h d (List.mem_cons_of_mem c (List.mem_reverse.mp h1))
      · rcases List.mem_singleton.mp h1 with rfl
        exact h d (List.mem_cons_self _ _)
    rw [dropWhile_digits _ hrev]
    simp

theorem pythonIntChars_digits (cs : List Char) (hne : cs ≠ [])
    (h : ∀ c ∈ cs, isDigitChar c = true) :
    pythonIntChars cs = (parseDigits cs).map (fun n => (n : Int)) := by
  cases cs with
  | nil => exact absurd rfl hne
  | cons c rest =>
    have hc : isDigitChar c = true := h c (List.mem_cons_self c rest)
    rw [pythonIntChars, if_neg (digit_ne_plus hc), if_neg (digit_ne_minus hc)]

theorem readPid_pidfileContent (n : Nat) :
    readPid (pidfileContent n) = some (n : Int) := by
  have hdata : (pidfileContent n).data = (pyStrOfNat n).data ++ ['\n'] := rfl
  rw [readPid, pyInt, pyStrip]
  show pythonIntChars (pyStripList (pyStripList (pidfileContent n).data)) = _
  rw [hdata, pyStripList_digits_newline _ (pyStrOfNat_digits n),
    pyStripList_digits _ (pyStrOfNat_digits n),
    pythonIntChars_digits _ (pyStrOfNat_ne_nil n) (pyStrOfNat_digits n),
    parseDigits_pyStrOfNat n]
  rfl

/-! ## Helper lemmas: the kill loop -/

theorem killLoop_sound (kills : Nat → KillResult) :
    ∀ fuel i n args, killLoop kills fuel i = some (n, args) →
      kills n = .raised args ∧ i ≤ n := by
  intro fuel
  induction fuel with
  | zero => intro i n args h; simp [killLoop] at h
  | succ fuel ih =>
    intro i n args h
    cases hk : kills i with
    | ok =>
      simp only [killLoop, hk] at h
      obtain ⟨h1, h2⟩ := ih (i + 1) n args h
      exact ⟨h1, by omega⟩
    | raised a =>
      simp only [killLoop, hk, Option.some.injEq, Prod.mk.injEq] at h
      obtain ⟨rfl, rfl⟩ := h
      exact ⟨hk, le_rfl⟩

theorem killLoop_first_failure (kills : Nat → KillResult) (n : Nat) (args : String)
    (hok : ∀ j, j < n → kills j = .ok) (hfail : kills n = .raised args) :
    ∀ fuel i, i ≤ n → n < i + fuel → killLoop kills fuel i = some (n, args) := by
  intro fuel
  induction fuel with
  | zero => intro i h1 h2; omega
  | succ fuel ih =>
    intro i h1 h2
    by_cases hin : i = n
    · subst hin; simp [killLoop, hfail]
    · have hlt : i < n := by omega
      simp only [killLoop, hok i hlt]
      exact ih (i + 1) (by omega) (by omega)

theorem killLoop_isSome (kills : Nat → KillResult) :
    ∀ fuel i, (∃ n, i ≤ n ∧ n < i + fuel ∧ kills n ≠ .ok) →
      (killLoop kills fuel i).isSome := by
  intro fuel
  induction fuel with
  | zero => rintro i ⟨n, h1, h2, h3⟩; omega
  | succ fuel ih =>
    rintro i ⟨n, h1, h2, h3⟩
    cases hk : kills i with
    | raised a => simp [killLoop, hk]
    | ok =>
      simp only [killLoop, hk]
      apply ih
      refine ⟨n, ?_, by omega, h3⟩
      rcases Nat.eq_or_lt_of_le h1 with rfl | hlt
      · exact absurd hk h3
      · omega

/-! ## The claims -/

/-- C1: for every pidfile whose content parses to a truthy (nonzero)
integer, `start` writes the already-running message to stderr and exits 1,
performing no liveness check (the model's `start` takes no process-state
input at all), no fork, and no worker invocation: its whole behaviour is
the single stderr write, the unchanged pidfile and the exit. -/
theorem C1_start_truthy_pidfile_fails (path c : String) (pid : Int) (f1 f2 : ForkR)
    (hparse : readPid c = some pid) (hpid : pid ≠ 0) :
    start path (some c) f1 f2 =
      ⟨[.stderrWrite (alreadyRunningMsg path)], some c, .exited 1⟩ := by
  simp only [start, hparse, if_pos hpid]

/-- Witness for C1 at pidfile contents `"42"`. -/
theorem C1_witness :
    start "p" (some "42") (.ok 3) (.ok 4) =
      ⟨[.stderrWrite (alreadyRunningMsg "p")], some "42", .exited 1⟩ :=
  C1_start_truthy_pidfile_fails "p" "42" 42 (.ok 3) (.ok 4) (by decide) (by decide)

/-- C2: when `stop` reads a truthy pid and the `n`-th SIGTERM delivery is
the first to fail, the loop delivers exactly `n` signals to that pid with a
sub-second (`0.1` s) sleep after each; when the error's text contains
`"No such process"` (at positive index, as the code tests) the pidfile —
still present — is removed and `stop` returns normally; on any other
delivery error the error text is printed and the process exits 1. -/
theorem C2_stop_kill_loop (path c args : String) (pid : Int) (n fuel : Nat)
    (kills : Nat → KillResult)
    (hparse : readPid c = some pid) (hpid : pid ≠ 0)
    (hok : ∀ j, j < n → kills j = .ok) (hfail : kills n = .raised args)
    (hfuel : n < fuel) :
    (0 < pollIntervalSeconds ∧ pollIntervalSeconds < 1) ∧
    (0 < pyFind args noSuchNeedle →
      stopFuel fuel path (some c) kills =
        some ⟨none, List.replicate n pid, n, [], [], .normal⟩) ∧
    (¬ 0 < pyFind args noSuchNeedle →
      stopFuel fuel path (some c) kills =
        some ⟨some c, List.replicate n pid, n, [], [args ++ "\n"], .exited 1⟩) := by
  have hloop := killLoop_first_failure kills n args hok hfail fuel 0 (by omega) (by omega)
  refine ⟨⟨by norm_num [pollIntervalSeconds], by norm_num [pollIntervalSeconds]⟩, ?_, ?_⟩
  · intro hfind
    simp only [stopFuel, hparse, if_neg hpid, hloop, if_pos hfind]
  · intro hfind
    simp only [stopFuel, hparse, if_neg hpid, hloop, if_neg hfind]

/-- Witness for C2: pid 7, two successful deliveries, then ESRCH. -/
theorem C2_witness :
    (0 < pollIntervalSeconds ∧ pollIntervalSeconds < 1) ∧
    (0 < pyFind "(3, No such process)" noSuchNeedle →
      stopFuel 3 "p" (some "7")
          (fun i => if i < 2 then .ok else .raised "(3, No such process)") =
        some ⟨none, List.replicate 2 7, 2, [], [], .normal⟩) ∧
    (¬ 0 < pyFind "(3, No such process)" noSuchNeedle →
      stopFuel 3 "p" (some "7")
          (fun i => if i < 2 then .ok else .raised "(3, No such process)") =
        some ⟨some "7", List.replicate 2 7, 2, [],
              ["(3, No such process)" ++ "\n"], .exited 1⟩) :=
  C2_stop_kill_loop "p" "7" "(3, No such process)" 7 2 3
    (fun i => if i < 2 then .ok else .raised "(3, No such process)")
    (by decide) (by decide) (by decide) (by decide) (by decide)

/-- C3: when the pidfile is absent, `stop` writes the informational
not-running message, returns normally (exit status 0), delivers no signal,
and leaves no pidfile behind. -/
theorem C3_stop_absent (fuel : Nat) (path : String) (kills : Nat → KillResult) :
    stopFuel fuel path none kills =
      some ⟨none, [], 0, [notRunningMsg path], [], .normal⟩ := rfl

/-- Counterexample to C4 as stated: a pidfile containing `"0\n"` exists,
yet `start` does not exit non-zero (the invoker exits 0) and does not leave
the pidfile unchanged (it is overwritten with the new child's pid). -/
theorem C4_counterexample :
    (start "p" (some "0\n") (.ok 10) (.ok 12)).invoker = .exited 0 ∧
    (start "p" (some "0\n") (.ok 10) (.ok 12)).pidfileAfter ≠ some "0\n" := by
  decide

/-- C4 (amended): for every existing pidfile whose content does not parse
to the integer 0, `start` exits with non-zero status (via `sys.exit(1)` on
a truthy pid, or status 1 from the uncaught `ValueError` on an unparsable
pidfile) and leaves the pidfile's content unchanged. -/
theorem C4_amended_start_existing_pidfile (path c : String) (f1 f2 : ForkR)
    (h : readPid c ≠ some 0) :
    (start path (some c) f1 f2).pidfileAfter = some c ∧
    exitCode (start path (some c) f1 f2).invoker ≠ 0 := by
  cases hp : readPid c with
  | none =>
    have hs : start path (some c) f1 f2 = ⟨[.raiseValueError], some c, .valueError⟩ := by
      simp only [start, hp]
    rw [hs]
    exact ⟨rfl, show exitCode Outcome.valueError ≠ 0 by decide⟩
  | some pid =>
    have hpid : pid ≠ 0 := by rintro rfl; exact h hp
    have hs : start path (some c) f1 f2
        = ⟨[.stderrWrite (alreadyRunningMsg path)], some c, .exited 1⟩ := by
      simp only [start, hp, if_pos hpid]
    rw [hs]
    exact ⟨rfl, show exitCode (Outcome.exited 1) ≠ 0 by decide⟩

/-- Witness for the amended C4 at pidfile contents `"7"`. -/
theorem C4_amended_witness :
    (start "p" (some "7") (.ok 3) (.ok 4)).pidfileAfter = some "7" ∧
    exitCode (start "p" (some "7") (.ok 3) (.ok 4)).invoker ≠ 0 :=
  C4_amended_start_existing_pidfile "p" "7" (.ok 3) (.ok 4) (by decide)

/-- Counterexample to C5 as stated: the claimed sequence has the pidfile
written before the cleanup action is registered, but in the code
`atexit.register(self.delpid)` precedes the pidfile write, so the actual
event sequence differs from the claimed one. -/
theorem C5_counterexample :
    (start "p" none (.ok 10) (.ok 12)).events ≠ c5ClaimedEvents 12 := by decide

/-- C5 (amended): when `start` finds no pidfile it performs exactly the
double-fork sequence — each parent exits 0 (or the forking process exits 1
on fork failure), the first child changes directory to root, creates a new
session and resets the umask, the final child redirects stdin/stdout/stderr
to the null device — then the final child REGISTERS the pidfile-removing
cleanup action, THEN writes its pid to the pidfile, and only then invokes
the worker callback. -/
theorem C5_amended_start_sequence (path : String) (p1 p2 : Nat) (m : String)
    (f2 : ForkR) :
    start path none (.ok p1) (.ok p2) =
      ⟨[.fork1, .exitParent 0, .chdirRoot, .setsid, .umask0, .fork2, .exitParent 0,
        .flushStdout, .flushStderr, .redirectStdin, .redirectStdout, .redirectStderr,
        .atexitRegisterDelpid, .writePidfile (pidfileContent p2), .runCallback],
       some (pidfileContent p2), .exited 0⟩ ∧
    start path none (.fail m) f2 =
      ⟨[.fork1, .stderrWrite (fork1FailMsg m), .exitProcess 1], none, .exited 1⟩ ∧
    start path none (.ok p1) (.fail m) =
      ⟨[.fork1, .exitParent 0, .chdirRoot, .setsid, .umask0, .fork2,
        .stderrWrite (fork2FailMsg m), .exitProcess 1], none, .exited 0⟩ := by
  refine ⟨rfl, ?_, rfl⟩
  cases f2 <;> rfl

/-- C6: for a truthy recorded pid, `stop` terminates (its kill loop
finishes within some finite number of kill calls) if and only if some
signal delivery eventually raises an error; while every delivery succeeds
the loop never exits. -/
theorem C6_stop_terminates_iff (path c : String) (pid : Int)
    (kills : Nat → KillResult)
    (hparse : readPid c = some pid) (hpid : pid ≠ 0) :
    (∃ fuel r, stopFuel fuel path (some c) kills = some r) ↔
      (∃ n, kills n ≠ .ok) := by
  constructor
  · rintro ⟨fuel, r, hr⟩
    simp only [stopFuel, hparse, if_neg hpid] at hr
    cases hk : killLoop kills fuel 0 with
    | none => rw [hk] at hr; cases hr
    | some p =>
      obtain ⟨n, args⟩ := p
      have hn := (killLoop_sound kills fuel 0 n args hk).1
      refine ⟨n, ?_⟩
      rw [hn]
      intro hc
      cases hc
  · rintro ⟨n, hn⟩
    refine ⟨n + 1, ?_⟩
    have hsome := killLoop_isSome kills (n + 1) 0 ⟨n, by omega, by omega, hn⟩
    obtain ⟨p, hp⟩ := Option.isSome_iff_exists.mp hsome
    obtain ⟨m, args⟩ := p
    simp only [stopFuel, hparse, if_neg hpid, hp]
    by_cases hf : 0 < pyFind args noSuchNeedle
    · exact ⟨_, by rw [if_pos hf]⟩
    · exact ⟨_, by rw [if_neg hf]⟩

/-- Witness for C6 at pid 5 and an environment whose third delivery
fails. -/
theorem C6_witness :
    (∃ fuel r, stopFuel fuel "p" (some "5")
        (fun i => if i < 2 then .ok else .raised "(3, No such process)") = some r) ↔
      (∃ n, (fun i => if i < 2 then KillResult.ok
                      else .raised "(3, No such process)") n ≠ .ok) :=
  C6_stop_terminates_iff "p" "5" 5
    (fun i => if i < 2 then .ok else .raised "(3, No such process)")
    (by decide) (by decide)

/-- C7: once a `stop` has completed (returned normally, hence exit status
0), a second `stop` from the resulting state is a no-op returning 0: it
sends no signal and leaves the pidfile state unchanged, so `stop` twice has
the same pidfile state, delivered signals and exit status as `stop`
once. -/
theorem C7_stop_idempotent (fuel fuel2 : Nat) (path : String) (pf : Option String)
    (kills kills2 : Nat → KillResult) (r1 : StopResult)
    (h : stopFuel fuel path pf kills = some r1) (hn : r1.outcome = .normal) :
    stopFuel fuel2 path r1.pidfileAfter kills2 =
      some ⟨r1.pidfileAfter, [], 0, [notRunningMsg path], [], .normal⟩ := by
  cases pf with
  | none =>
    rw [show stopFuel fuel path none kills
        = some ⟨none, [], 0, [notRunningMsg path], [], .normal⟩ from rfl] at h
    injection h with h'
    subst h'
    rfl
  | some c =>
    cases hp : readPid c with
    | none =>
      simp only [stopFuel, hp] at h
      injection h with h'
      subst h'
      cases hn
    | some pid =>
      by_cases h0 : pid = 0
      · subst h0
        have hs : stopFuel fuel path (some c) kills
            = some ⟨some c, [], 0, [notRunningMsg path], [], .normal⟩ := by
          simp [stopFuel, hp]
        rw [hs] at h
        injection h with h'
        subst h'
        simp [stopFuel, hp]
      · cases hk : killLoop kills fuel 0 with
        | none =>
          simp only [stopFuel, hp, if_neg h0, hk] at h
          exact Option.noConfusion h
        | some p =>
          obtain ⟨n, args⟩ := p
          simp only [stopFuel, hp, if_neg h0, hk] at h
          by_cases hf : 0 < pyFind args noSuchNeedle
          · rw [if_pos hf] at h
            injection h with h'
            subst h'
            rfl
          · rw [if_neg hf] at h
            injection h with h'
            subst h'
            cases hn

/-- Witness for C7: a first `stop` that removes the pidfile after an ESRCH
on the first delivery, followed by a second `stop`. -/
theorem C7_witness :
    stopFuel 5 "p" (StopResult.pidfileAfter ⟨none, [], 0, [], [], .normal⟩)
        (fun _ => .ok) =
      some ⟨StopResult.pidfileAfter ⟨none, [], 0, [], [], .normal⟩, [], 0,
            [notRunningMsg "p"], [], .normal⟩ :=
  C7_stop_idempotent 1 5 "p" (some "7")
    (fun _ => .raised "(3, No such process)") (fun _ => .ok)
    ⟨none, [], 0, [], [], .normal⟩ (by decide) (by decide)

/-- C8: a successful `start` (both forks succeed) produces a pidfile whose
content is exactly the decimal numeral of the final detached child's pid
followed by a single terminating newline (the numeral itself contains only
digits, hence no newline), which parses back to that pid; and, since fork
returns a pid not in use while the invoker's pid is in use, the final child
is not the original invoking process. -/
theorem C8_pidfile_format (path : String) (alive : List Nat) (origPid p1 p2 : Nat)
    (hOrig : origPid ∈ alive) (hFresh : p2 ∉ alive) :
    (start path none (.ok p1) (.ok p2)).pidfileAfter = some (pidfileContent p2) ∧
    (pidfileContent p2).data = (pyStrOfNat p2).data ++ ['\n'] ∧
    (∀ ch ∈ (pyStrOfNat p2).data, isDigitChar ch = true) ∧
    '\n' ∉ (pyStrOfNat p2).data ∧
    readPid (pidfileContent p2) = some (p2 : Int) ∧
    p2 ≠ origPid := by
  refine ⟨rfl, rfl, pyStrOfNat_digits p2, ?_, readPid_pidfileContent p2, ?_⟩
  · intro hmem
    exact digit_ne_newline (pyStrOfNat_digits p2 _ hmem) rfl
  · rintro rfl
    exact hFresh hOrig

/-- Witness for C8 with invoker pid 100 alive and fresh child pid 102. -/
theorem C8_witness :
    (start "p" none (.ok 101) (.ok 102)).pidfileAfter = some (pidfileContent 102) ∧
    (pidfileContent 102).data = (pyStrOfNat 102).data ++ ['\n'] ∧
    (∀ ch ∈ (pyStrOfNat 102).data, isDigitChar ch = true) ∧
    '\n' ∉ (pyStrOfNat 102).data ∧
    readPid (pidfileContent 102) = some (102 : Int) ∧
    102 ≠ 100 :=
  C8_pidfile_format "p" [100] 100 101 102 (by decide) (by decide)

/-- C9: when the stripped pidfile content does not parse as an integer,
both `start` and `stop` let the `ValueError` escape uncaught (only the
absence `IOError` is caught): no already-running or not-running message is
produced, no fork or signal happens, and the pidfile is left in place. -/
theorem C9_unparsable_pidfile_raises (path c : String) (f1 f2 : ForkR)
    (fuel : Nat) (kills : Nat → KillResult) (h : readPid c = none) :
    start path (some c) f1 f2 = ⟨[.raiseValueError], some c, .valueError⟩ ∧
    stopFuel fuel path (some c) kills = some ⟨some c, [], 0, [], [], .valueError⟩ := by
  constructor
  · simp only [start, h]
  · simp only [stopFuel, h]

/-- Witness for C9 at pidfile contents `"abc"`. -/
theorem C9_witness :
    start "p" (some "abc") (.ok 3) (.ok 4) =
      ⟨[.raiseValueError], some "abc", .valueError⟩ ∧
    stopFuel 2 "p" (some "abc") (fun _ => .ok) =
      some ⟨some "abc", [], 0, [], [], .valueError⟩ :=
  C9_unparsable_pidfile_raises "p" "abc" (.ok 3) (.ok 4) 2 (fun _ => .ok) (by decide)

/-- C10: a pidfile whose content parses to the integer 0 is treated by both
operations as if absent, because the parsed pid is tested for truth:
`start` performs the same events with the same invoker fate as with no
pidfile (so it detaches), overwriting the pidfile when both forks succeed,
and `stop` emits the not-running message, sends no signal, and returns
normally. -/
theorem C10_zero_pid_as_absent (path c : String) (f1 f2 : ForkR) (fuel : Nat)
    (kills : Nat → KillResult) (h : readPid c = some 0) :
    (start path (some c) f1 f2).events = (start path none f1 f2).events ∧
    (start path (some c) f1 f2).invoker = (start path none f1 f2).invoker ∧
    (∀ q1 q2, f1 = .ok q1 → f2 = .ok q2 →
      (start path (some c) f1 f2).pidfileAfter = some (pidfileContent q2)) ∧
    stopFuel fuel path (some c) kills =
      some ⟨some c, [], 0, [notRunningMsg path], [], .normal⟩ := by
  have hs : start path (some c) f1 f2 = startDaemonize (some c) f1 f2 := by
    simp only [start, h, if_neg (by decide : ¬((0 : Int) ≠ 0))]
  have hn : start path none f1 f2 = startDaemonize none f1 f2 := rfl
  rw [hs, hn]
  refine ⟨?_, ?_, ?_, ?_⟩
  · cases f1 <;> cases f2 <;> rfl
  · cases f1 <;> cases f2 <;> rfl
  · rintro q1 q2 rfl rfl; rfl
  · simp [stopFuel, h]

/-- Witness for C10 at pidfile contents `"0\n"`. -/
theorem C10_witness :
    (start "p" (some "0\n") (.ok 10) (.ok 12)).events
      = (start "p" none (.ok 10) (.ok 12)).events ∧
    (start "p" (some "0\n") (.ok 10) (.ok 12)).invoker
      = (start "p" none (.ok 10) (.ok 12)).invoker ∧
    (∀ q1 q2, ForkR.ok 10 = .ok q1 → ForkR.ok 12 = .ok q2 →
      (start "p" (some "0\n") (.ok 10) (.ok 12)).pidfileAfter
        = some (pidfileContent q2)) ∧
    stopFuel 2 "p" (some "0\n") (fun _ => .ok) =
      some ⟨some "0\n", [], 0, [notRunningMsg "p"], [], .normal⟩ :=
  C10_zero_pid_as_absent "p" "0\n" (.ok 10) (.ok 12) 2 (fun _ => .ok) (by decide)
